import Mathlib

/-
Verification of the client-side logic of the Trafeek admin dashboard.

The development shallowly embeds the TypeScript source:
pure array / string operations become Lean functions on lists and strings,
the auth session becomes an explicit state record with a step function,
and JavaScript truthiness on strings is made explicit (the empty string is
falsy).  JavaScript `Array.prototype.sort` is stable (ES2019) and is called
with comparators of the shape `(a, b) => key(b) - key(a)`; for a total
preorder the stable sorted permutation is unique, so the sort is embedded
as `List.insertionSort` over the relation "key b ≤ key a", which Mathlib
proves sorted and stable.
-/

open List

namespace Trafeek

/-! ### JavaScript string primitives -/

/-- `String.prototype.toLowerCase`, on the character list of a string. -/
def jsLower (l : List Char) : List Char := l.map Char.toLower

/-- `hay.includes(needle)`: contiguous substring containment. -/
def jsIncludes (hay needle : List Char) : Bool := decide (needle <:+: hay)

/-- `hay.toLowerCase().includes(needle.toLowerCase())`, the case-insensitive
substring test used by every filter in the dashboard. -/
def ciIncludes (hay needle : String) : Bool :=
  jsIncludes (jsLower hay.toList) (jsLower needle.toList)

/-! ### Data model (interface `Report` in the Reports / RiderReports pages) -/

/-- The populated `userId` object embedded in a report. -/
structure ReportUser where
  id : String
  email : String
  name : Option String
  deriving DecidableEq

/-- Interface `Report`.  `comments` is `any[]` in the source and only its
length is ever observed, so elements are embedded as `Unit`.  Coordinates
are numeric and never used by the derivation logic. -/
structure Report where
  id : String
  type : String
  description : String
  locationName : Option String
  latitude : Option Int
  longitude : Option Int
  photoUrl : Option String
  userId : ReportUser
  upvotes : Int
  comments : Option (List Unit)
  createdAt : String
  deriving DecidableEq

/-- `report.comments?.length || 0`. -/
def commentCount (r : Report) : Nat :=
  match r.comments with
  | some cs => cs.length
  | none => 0

/-- `(report.upvotes || 0) + (report.comments?.length || 0)`, the
high-engagement score.  `upvotes` is a required numeric field, and
`0 || 0` is `0`, so the first summand is just `upvotes`. -/
def engagementScore (r : Report) : Int := r.upvotes + (commentCount r : Int)

/-! ### The filter step of `filteredReports` -/

/-- The `matchesSearch` conjunct of the filter callback:

    report.description?.toLowerCase().includes(search.toLowerCase()) ||
    (report.locationName && report.locationName.toLowerCase().includes(...)) ||
    (report.userId?.email && report.userId.email.toLowerCase().includes(...))

`description`, `userId` and `userId.email` are required fields, so the
optional chaining is total; the `&&` guards are JavaScript truthiness
tests, false on a missing or empty string. -/
def matchesSearch (search : String) (r : Report) : Bool :=
  ciIncludes r.description search
    || (match r.locationName with
        | some l => decide (l ≠ "") && ciIncludes l search
        | none => false)
    || (decide (r.userId.email ≠ "") && ciIncludes r.userId.email search)

/-- The `matchesLocation` conjunct of the filter callback:

    !locationSearch ||
    (report.locationName &&
      report.locationName.toLowerCase().includes(locationSearch.toLowerCase())) -/
def matchesLocation (locationSearch : String) (r : Report) : Bool :=
  decide (locationSearch = "")
    || (match r.locationName with
        | some l => decide (l ≠ "") && ciIncludes l locationSearch
        | none => false)

/-- The filter callback passed to `reports.filter`. -/
def keepReport (search locationSearch : String) (r : Report) : Bool :=
  matchesSearch search r && matchesLocation locationSearch r

/-! ### The sort step of `filteredReports` -/

/-- Comparator order for `most-upvoted`: `(a, b) => b.upvotes - a.upvotes`
keeps `a` before `b` exactly when `b.upvotes ≤ a.upvotes`. -/
def upvoteOrder (a b : Report) : Prop := b.upvotes ≤ a.upvotes

/-- Comparator order for `high-engagement`: `scoreB - scoreA`. -/
def engagementOrder (a b : Report) : Prop :=
  engagementScore b ≤ engagementScore a

/-- Comparator order for `most-commented`:
`(b.comments?.length || 0) - (a.comments?.length || 0)`. -/
def commentOrder (a b : Report) : Prop := commentCount b ≤ commentCount a

instance : DecidableRel upvoteOrder := fun _ _ => Int.decLe _ _

instance : DecidableRel engagementOrder := fun _ _ => Int.decLe _ _

instance : DecidableRel commentOrder := fun _ _ => Nat.decLe _ _

instance : IsTotal Report upvoteOrder := ⟨fun _ _ => Int.le_total _ _⟩

instance : IsTotal Report engagementOrder := ⟨fun _ _ => Int.le_total _ _⟩

instance : IsTotal Report commentOrder := ⟨fun _ _ => Nat.le_total _ _⟩

instance : IsTrans Report upvoteOrder :=
  ⟨fun _ _ _ h1 h2 => le_trans h2 h1⟩

instance : IsTrans Report engagementOrder :=
  ⟨fun _ _ _ h1 h2 => le_trans h2 h1⟩

instance : IsTrans Report commentOrder :=
  ⟨fun _ _ _ h1 h2 => le_trans h2 h1⟩

/-- The whole `filteredReports` derivation of the Reports page: filter by
search text and location, then sort a copy according to the engagement
selector (state string, initial value `"all"`); any selector other than the
three recognized literals leaves the filtered order unchanged. -/
def filteredReports (reports : List Report)
    (search locationSearch engagementFilter : String) : List Report :=
  let base := reports.filter (keepReport search locationSearch)
  if engagementFilter = "high-engagement" then
    base.insertionSort engagementOrder
  else if engagementFilter = "most-upvoted" then
    base.insertionSort upvoteOrder
  else if engagementFilter = "most-commented" then
    base.insertionSort commentOrder
  else
    base

/-! ### Auth session (AuthContext.tsx) -/

/-- An identity returned by the backend (`res.data` of `/auth/me`,
`res.data.user` of `/auth/login`).  The role is an arbitrary string on the
wire; the client checks it against `"admin"`. -/
structure Admin where
  id : String
  email : String
  name : Option String
  role : String
  deriving DecidableEq

/-- The session state: the `admin_token` entry of localStorage and the
React `admin` state variable. -/
structure AuthState where
  storedToken : Option String
  admin : Option Admin
  deriving DecidableEq

/-- The body of `/auth/login`: `{ token, user }`. -/
structure LoginResponse where
  token : String
  user : Admin
  deriving DecidableEq

/-- The `login` function: throws (state unchanged, nothing persisted) when
the returned role is not `"admin"`, otherwise stores the token and sets the
admin identity. -/
def login (st : AuthState) (res : LoginResponse) :
    Except String Unit × AuthState :=
  if res.user.role ≠ "admin" then
    (Except.error "Access denied. Admin account required.", st)
  else
    (Except.ok (), { storedToken := some res.token, admin := some res.user })

/-- The startup validation `initAuth`: with no stored token nothing happens;
with a token, a failed `/auth/me` call or a non-admin role discards the
token and clears the identity, and an admin identity is adopted. -/
def initAuth (st : AuthState) (me : Except String Admin) : AuthState :=
  match st.storedToken with
  | none => st
  | some tok =>
    match me with
    | Except.error _ => { storedToken := none, admin := none }
    | Except.ok u =>
      if u.role ≠ "admin" then { storedToken := none, admin := none }
      else { storedToken := some tok, admin := some u }

/-- The `logout` function: discard the credential and clear the identity. -/
def logout (_st : AuthState) : AuthState :=
  { storedToken := none, admin := none }

/-- The session events: startup validation (with the backend answer to
`/auth/me`), an explicit login (with the backend answer to `/auth/login`),
and an explicit logout. -/
inductive AuthEvent
  | startup (me : Except String Admin)
  | doLogin (res : LoginResponse)
  | doLogout

/-- One session transition. -/
def authStep (st : AuthState) : AuthEvent → AuthState
  | AuthEvent.startup me => initAuth st me
  | AuthEvent.doLogin res => (login st res).2
  | AuthEvent.doLogout => logout st

/-- A run of the session through a sequence of events. -/
def runAuth (st : AuthState) (es : List AuthEvent) : AuthState :=
  es.foldl authStep st

/-! ### Destructive-action confirmation (handleDelete handlers) -/

/-- The delete endpoints a confirmation handler may call. -/
inductive AdminCall
  | deleteUser (userId : String)
  | deleteReport (reportId : String)
  | deleteComment (reportId commentId : String)
  deriving DecidableEq

/-- `handleDelete` of the Users page: `prompt` yields `null` on cancel or a
string; the delete mutation fires only on `confirm === "DELETE"`. -/
def handleDeleteUser (userId : String) (promptInput : Option String) :
    List AdminCall :=
  if promptInput = some "DELETE" then [AdminCall.deleteUser userId] else []

/-- `handleDeleteReport` of ReportDetailModal / RiderReports. -/
def handleDeleteReport (reportId : String) (promptInput : Option String) :
    List AdminCall :=
  if promptInput = some "DELETE" then [AdminCall.deleteReport reportId] else []

/-- `handleDeleteComment` of ReportDetailModal. -/
def handleDeleteComment (reportId commentId : String)
    (promptInput : Option String) : List AdminCall :=
  if promptInput = some "DELETE" then
    [AdminCall.deleteComment reportId commentId]
  else []

/-! ### Mutation error handlers -/

/-- Interface `User` of the Users page. -/
structure User where
  id : String
  email : String
  name : Option String
  role : String
  isSuspended : Bool
  suspensionReason : Option String
  createdAt : String
  deriving DecidableEq

/-- The cached query data the views render from. -/
structure LocalData where
  users : List User
  reports : List Report
  deriving DecidableEq

/-- The six mutations with an `onError` handler. -/
inductive AdminMutation
  | suspendUser
  | unsuspendUser
  | deleteUser
  | deleteReport
  | deleteComment
  | addComment
  deriving DecidableEq

/-- The generic fallback of each `onError` handler. -/
def fallbackMessage : AdminMutation → String
  | AdminMutation.suspendUser => "Failed to suspend user"
  | AdminMutation.unsuspendUser => "Failed to unsuspend user"
  | AdminMutation.deleteUser => "Failed to delete user"
  | AdminMutation.deleteReport => "Failed to delete report"
  | AdminMutation.deleteComment => "Failed to delete comment"
  | AdminMutation.addComment => "Failed to add comment"

/-- `error.response?.data?.message || fallback`: a missing payload
(`none`, covering an absent response, data or message) and the falsy empty
string both yield the fallback. -/
def jsOrDefault (x : Option String) (fallback : String) : String :=
  match x with
  | some s => if s = "" then fallback else s
  | none => fallback

/-- The `onError` handler of a mutation: it only derives and emits a toast
message; the cached data is returned untouched. -/
def onMutationError (m : AdminMutation) (st : LocalData)
    (payload : Option String) : LocalData × String :=
  (st, jsOrDefault payload (fallbackMessage m))

/-! ### Category label/color lookup (`reportTypes`) -/

/-- One entry of the `reportTypes` object. -/
structure TypeConfig where
  label : String
  color : String
  deriving DecidableEq

/-- The `reportTypes` object literal; indexing with any other key yields
`undefined`. -/
def reportTypes : String → Option TypeConfig
  | "heavy-traffic" =>
    some { label := "Heavy Traffic", color := "bg-purple-100 text-purple-700" }
  | "accident" => some { label := "Accident", color := "bg-red-100 text-red-700" }
  | "construction" =>
    some { label := "Construction", color := "bg-orange-100 text-orange-700" }
  | "flood" => some { label := "Flooded Road", color := "bg-blue-100 text-blue-700" }
  | "checkpoint" =>
    some { label := "Police Checkpoint", color := "bg-gray-100 text-gray-700" }
  | _ => none

/-- The failure mode of reading `.label` / `.color` off `undefined`. -/
inductive RenderError
  | unrecognizedCategory
  deriving DecidableEq

/-- The row render step `const typeConfig = reportTypes[report.type]`
followed by `typeConfig.label` / `typeConfig.color`: an unrecognized
category makes the property access throw. -/
def typeBadge (r : Report) : Except RenderError TypeConfig :=
  match reportTypes r.type with
  | some cfg => Except.ok cfg
  | none => Except.error RenderError.unrecognizedCategory

/-- The five category values of the data model. -/
def fixedCategories : List String :=
  ["heavy-traffic", "accident", "construction", "flood", "checkpoint"]

/-! ### The spec side of the filter, for the refinement comparison -/

/-- The filter predicate as the spec words it: keep a report iff the search
string is empty OR it case-insensitively substring-matches at least one of
description, location name, reporter email, AND the location filter is
empty OR the location name case-insensitively contains it. -/
def specKeep (search locationSearch : String) (r : Report) : Prop :=
  (search = "" ∨ ciIncludes r.description search = true ∨
      (∃ l, r.locationName = some l ∧ ciIncludes l search = true) ∨
      ciIncludes r.userId.email search = true) ∧
  (locationSearch = "" ∨
    ∃ l, r.locationName = some l ∧ ciIncludes l locationSearch = true)

/-! ### Lemmas about the string primitives -/

/-- The empty needle is a substring of everything: `s.includes("")`. -/
theorem ciIncludes_empty_needle (s : String) : ciIncludes s "" = true := by
  simp [ciIncludes, jsIncludes, jsLower]

/-- A non-empty needle is never a substring of the empty string. -/
theorem ciIncludes_empty_hay {s : String} (h : s ≠ "") :
    ciIncludes "" s = false := by
  simp only [ciIncludes, jsIncludes, jsLower]
  rw [decide_eq_false_iff_not]
  intro hinf
  have h1 : (jsLower s.toList) = [] := by
    simpa [jsLower] using List.eq_nil_of_infix_nil hinf
  have h2 : s.toList = [] := by
    simpa [jsLower] using h1
  apply h
  cases s with
  | mk data => simpa [String.toList] using congrArg String.mk h2

/-- For a non-empty needle, the JavaScript truthiness guard on the haystack
is redundant: an empty haystack fails the substring test anyway. -/
theorem guard_ciIncludes {s : String} (hs : s ≠ "") (l : String) :
    (¬ l = "" ∧ ciIncludes l s = true) ↔ ciIncludes l s = true := by
  constructor
  · exact fun h => h.2
  · intro h
    refine ⟨?_, h⟩
    intro hl
    subst hl
    rw [ciIncludes_empty_hay hs] at h
    cases h

/-- Claim C1: the filter step keeps a report if and only if the search
string is empty or case-insensitively substring-matches one of the
description, the location name or the reporter email, and the location
filter is empty or the location name case-insensitively contains it; in
particular a report lacking a location name never matches a non-empty
location filter. -/
theorem filter_keep_iff_spec :
    (∀ (search locationSearch : String) (r : Report),
      keepReport search locationSearch r = true ↔
        specKeep search locationSearch r) ∧
    (∀ (search locationSearch : String) (r : Report),
      r.locationName = none → locationSearch ≠ "" →
      keepReport search locationSearch r = false) := by
  have main : ∀ (search locationSearch : String) (r : Report),
      keepReport search locationSearch r = true ↔
        specKeep search locationSearch r := by
    intro search locationSearch r
    unfold keepReport matchesSearch matchesLocation specKeep
    by_cases hs : search = ""
    · subst hs
      by_cases hl : locationSearch = ""
      · subst hl
        cases hln : r.locationName <;>
          simp [hln, ciIncludes_empty_needle]
      · cases hln : r.locationName with
        | none => simp [hln, hl, ciIncludes_empty_needle]
        | some l =>
          by_cases hle : l = ""
          · subst hle
            simp [hln, hl, ciIncludes_empty_needle, ciIncludes_empty_hay hl]
          · simp [hln, hl, hle, ciIncludes_empty_needle]
    · by_cases hl : locationSearch = ""
      · subst hl
        cases hln : r.locationName with
        | none => simp [hln, hs, guard_ciIncludes hs]
        | some l => simp [hln, hs, guard_ciIncludes hs, or_assoc]
      · cases hln : r.locationName with
        | none => simp [hln, hs, hl, guard_ciIncludes hs]
        | some l =>
          simp [hln, hs, hl, guard_ciIncludes hs, guard_ciIncludes hl, or_assoc]
  refine ⟨main, ?_⟩
  intro search locationSearch r hnone hl
  rw [← Bool.not_eq_true, main]
  intro hspec
  rcases hspec.2 with h | ⟨l, hsome, _⟩
  · exact hl h
  · rw [hnone] at hsome
    cases hsome

/-- Concrete instantiation of the second part of `filter_keep_iff_spec`: a
report without a location name is dropped by the location filter `"x"`. -/
def c1Report : Report :=
  { id := "r0", type := "flood", description := "Road flood near bridge",
    locationName := none, latitude := none, longitude := none,
    photoUrl := none,
    userId := { id := "u0", email := "rider@example.com", name := none },
    upvotes := 0, comments := none, createdAt := "2024-01-01" }

/-- Witness for claim C1 at a concrete report. -/
theorem filter_keep_iff_spec_witness :
    c1Report.locationName = none ∧ ("x" : String) ≠ "" ∧
      keepReport "flood" "x" c1Report = false :=
  ⟨rfl, by decide, filter_keep_iff_spec.2 "flood" "x" c1Report rfl (by decide)⟩

/-! ### Sorting claims -/

/-- Unfolding of the `most-upvoted` branch. -/
theorem filteredReports_mostUpvoted (reports : List Report)
    (search locationSearch : String) :
    filteredReports reports search locationSearch "most-upvoted" =
      (reports.filter (keepReport search locationSearch)).insertionSort
        upvoteOrder := rfl

/-- Unfolding of the `high-engagement` branch. -/
theorem filteredReports_highEngagement (reports : List Report)
    (search locationSearch : String) :
    filteredReports reports search locationSearch "high-engagement" =
      (reports.filter (keepReport search locationSearch)).insertionSort
        engagementOrder := rfl

/-- Unfolding of the `most-commented` branch. -/
theorem filteredReports_mostCommented (reports : List Report)
    (search locationSearch : String) :
    filteredReports reports search locationSearch "most-commented" =
      (reports.filter (keepReport search locationSearch)).insertionSort
        commentOrder := rfl

/-- Claim C2: the `most-upvoted` selector yields a list monotonically
non-increasing in `upvotes` (in the data model `upvotes` is a required
field, so the missing-value clause is vacuous). -/
theorem mostUpvoted_sorted (reports : List Report)
    (search locationSearch : String) :
    (filteredReports reports search locationSearch "most-upvoted").Pairwise
      (fun a b => b.upvotes ≤ a.upvotes) := by
  rw [filteredReports_mostUpvoted]
  exact List.sorted_insertionSort upvoteOrder _

/-- Claim C3: with all filters cleared (empty search, empty location
filter, selector at its initial value) the derived list is the base list in
its original order, and in general the unsorted derivation is an
order-preserving sublist of the base list. -/
theorem filter_clear_restores_base (reports : List Report)
    (search locationSearch : String) :
    filteredReports reports "" "" "all" = reports ∧
      List.Sublist (filteredReports reports search locationSearch "all")
        reports := by
  constructor
  · show reports.filter (keepReport "" "") = reports
    rw [List.filter_eq_self]
    intro r _
    unfold keepReport matchesSearch matchesLocation
    simp [ciIncludes_empty_needle]
  · show List.Sublist (reports.filter (keepReport search locationSearch))
      reports
    exact List.filter_sublist reports

/-- Claim C4: the `high-engagement` selector yields a list monotonically
non-increasing in `upvotes + comments.length` (missing comment lists count
as 0), and any two filtered reports with equal scores keep their relative
order (the sort is stable). -/
theorem highEngagement_sorted_stable :
    (∀ (reports : List Report) (search locationSearch : String),
      (filteredReports reports search locationSearch
          "high-engagement").Pairwise
        (fun a b => engagementScore b ≤ engagementScore a)) ∧
    (∀ (reports : List Report) (search locationSearch : String)
        (a b : Report),
      engagementScore a = engagementScore b →
      List.Sublist [a, b] (reports.filter (keepReport search locationSearch)) →
      List.Sublist [a, b]
        (filteredReports reports search locationSearch "high-engagement")) := by
  constructor
  · intro reports search locationSearch
    rw [filteredReports_highEngagement]
    exact List.sorted_insertionSort engagementOrder _
  · intro reports search locationSearch a b hscore hsub
    rw [filteredReports_highEngagement]
    exact List.pair_sublist_insertionSort (le_of_eq hscore.symm) hsub

/-- Two reports with equal engagement score 2, built differently: one from
upvotes, one from a comment. -/
def c4a : Report :=
  { id := "a", type := "accident", description := "first",
    locationName := none, latitude := none, longitude := none,
    photoUrl := none,
    userId := { id := "ua", email := "a@x.com", name := none },
    upvotes := 1, comments := some [()], createdAt := "t" }

def c4b : Report :=
  { id := "b", type := "flood", description := "second",
    locationName := none, latitude := none, longitude := none,
    photoUrl := none,
    userId := { id := "ub", email := "b@x.com", name := none },
    upvotes := 2, comments := none, createdAt := "t" }

/-- Witness for claim C4: the two equal-score reports keep their order. -/
theorem highEngagement_sorted_stable_witness :
    engagementScore c4a = engagementScore c4b ∧
      List.Sublist [c4a, c4b]
        (filteredReports [c4a, c4b] "" "" "high-engagement") :=
  ⟨by decide,
    highEngagement_sorted_stable.2 [c4a, c4b] "" "" c4a c4b (by decide)
      (by decide)⟩

/-- The three reports of the C5 scenario: upvotes 5, 1, 3 and comment
counts 0 (missing list), 4, 2. -/
def c5r1 : Report :=
  { id := "r1", type := "heavy-traffic", description := "first report",
    locationName := none, latitude := none, longitude := none,
    photoUrl := none,
    userId := { id := "u1", email := "one@x.com", name := none },
    upvotes := 5, comments := none, createdAt := "t1" }

def c5r2 : Report :=
  { id := "r2", type := "accident", description := "second report",
    locationName := none, latitude := none, longitude := none,
    photoUrl := none,
    userId := { id := "u2", email := "two@x.com", name := none },
    upvotes := 1, comments := some [(), (), (), ()], createdAt := "t2" }

def c5r3 : Report :=
  { id := "r3", type := "construction", description := "third report",
    locationName := none, latitude := none, longitude := none,
    photoUrl := none,
    userId := { id := "u3", email := "three@x.com", name := none },
    upvotes := 3, comments := some [(), ()], createdAt := "t3" }

/-- Claim C5: on the scenario list the `most-commented` selector puts the
report with 4 comments first, then 2, then 0 (a missing comment list
counting as 0); in general `most-commented` sorts monotonically
non-increasing in comment count. -/
theorem mostCommented_scenario_and_sorted :
    filteredReports [c5r1, c5r2, c5r3] "" "" "most-commented" =
        [c5r2, c5r3, c5r1] ∧
      ∀ (reports : List Report) (search locationSearch : String),
        (filteredReports reports search locationSearch
            "most-commented").Pairwise
          (fun a b => commentCount b ≤ commentCount a) := by
  constructor
  · decide
  · intro reports search locationSearch
    rw [filteredReports_mostCommented]
    exact List.sorted_insertionSort commentOrder _

/-! ### Auth claims -/

/-- Claim C6: a login whose returned identity is not admin-role rejects
with the access-denied failure and leaves the state untouched (no token is
persisted); an admin-role identity persists the returned token and makes
the session authenticated. -/
theorem login_admin_gate :
    ∀ (st : AuthState) (res : LoginResponse),
      (res.user.role ≠ "admin" →
        login st res =
          (Except.error "Access denied. Admin account required.", st)) ∧
      (res.user.role = "admin" →
        login st res =
          (Except.ok (),
            { storedToken := some res.token, admin := some res.user })) := by
  intro st res
  constructor
  · intro h
    simp [login, h]
  · intro h
    simp [login, h]

/-- A backend identity with a non-admin role. -/
def c6free : Admin :=
  { id := "u9", email := "rider@x.com", name := none, role := "free" }

/-- A backend identity with the admin role. -/
def c6admin : Admin :=
  { id := "a1", email := "root@x.com", name := some "Root", role := "admin" }

/-- Witness for claim C6 at concrete login responses. -/
theorem login_admin_gate_witness :
    login { storedToken := none, admin := none }
        { token := "t9", user := c6free } =
      (Except.error "Access denied. Admin account required.",
        { storedToken := none, admin := none }) ∧
    login { storedToken := none, admin := none }
        { token := "t1", user := c6admin } =
      (Except.ok (), { storedToken := some "t1", admin := some c6admin }) :=
  ⟨(login_admin_gate { storedToken := none, admin := none }
      { token := "t9", user := c6free }).1 (by decide),
    (login_admin_gate { storedToken := none, admin := none }
      { token := "t1", user := c6admin }).2 (by decide)⟩

/-- Helper for claim C7: every session transition preserves the invariant
that a held identity has the admin role. -/
theorem authStep_admin_role (st : AuthState) (e : AuthEvent)
    (h : ∀ u, st.admin = some u → u.role = "admin") :
    ∀ u, (authStep st e).admin = some u → u.role = "admin" := by
  cases e with
  | startup me =>
    show ∀ u, (initAuth st me).admin = some u → u.role = "admin"
    unfold initAuth
    cases hst : st.storedToken with
    | none => exact h
    | some tok =>
      cases me with
      | error e =>
        intro u hu
        cases hu
      | ok v =>
        by_cases hrole : v.role = "admin"
        · intro u hu
          simp [hrole] at hu
          rw [← hu]
          exact hrole
        · intro u hu
          simp [hrole] at hu
  | doLogin res =>
    show ∀ u, (login st res).2.admin = some u → u.role = "admin"
    unfold login
    by_cases hrole : res.user.role = "admin"
    · intro u hu
      simp [hrole] at hu
      rw [← hu]
      exact hrole
    · intro u hu
      simp [hrole] at hu
      exact h u hu
  | doLogout =>
    intro u hu
    cases hu

/-- Helper for claim C7: the invariant holds along any run. -/
theorem runAuth_admin_role (es : List AuthEvent) :
    ∀ st : AuthState, (∀ u, st.admin = some u → u.role = "admin") →
      ∀ u, (runAuth st es).admin = some u → u.role = "admin" := by
  induction es with
  | nil => exact fun st h => h
  | cons e es ih =>
    intro st h
    exact ih (authStep st e) (authStep_admin_role st e h)

/-- Claim C7: starting from an admin-less state, the startup validation
authenticates only an identity the backend confirmed with the admin role;
any validation failure or non-admin role discards the credential and ends
unauthenticated; and along every run of the session every authenticated
state holds an admin-role identity. -/
theorem auth_admin_invariant :
    (∀ (stored : Option String) (me : Except String Admin) (u : Admin),
      (initAuth { storedToken := stored, admin := none } me).admin = some u →
      me = Except.ok u ∧ u.role = "admin") ∧
    (∀ (tok : String) (me : Except String Admin),
      ((∃ e, me = Except.error e) ∨
        ∃ u, me = Except.ok u ∧ ¬ u.role = "admin") →
      initAuth { storedToken := some tok, admin := none } me =
        { storedToken := none, admin := none }) ∧
    (∀ (stored : Option String) (es : List AuthEvent) (u : Admin),
      (runAuth { storedToken := stored, admin := none } es).admin = some u →
      u.role = "admin") := by
  refine ⟨?_, ?_, ?_⟩
  · intro stored me u hu
    unfold initAuth at hu
    cases stored with
    | none => cases hu
    | some tok =>
      cases me with
      | error e => cases hu
      | ok v =>
        by_cases hrole : v.role = "admin"
        · simp [hrole] at hu
          rw [← hu]
          exact ⟨rfl, hrole⟩
        · simp [hrole] at hu
  · intro tok me hbad
    unfold initAuth
    rcases hbad with ⟨e, he⟩ | ⟨u, hu, hrole⟩
    · rw [he]
    · rw [hu]
      simp [hrole]
  · intro stored es u hu
    refine runAuth_admin_role es { storedToken := stored, admin := none }
      ?_ u hu
    intro v hv
    cases hv

/-- A concrete admin identity for the C7 witness. -/
def c7admin : Admin :=
  { id := "a2", email := "ops@x.com", name := none, role := "admin" }

/-- Witness for claim C7: a concrete startup adoption, a concrete failed
validation, and a concrete run ending authenticated. -/
theorem auth_admin_invariant_witness :
    c7admin.role = "admin" ∧
    initAuth { storedToken := some "t", admin := none }
        (Except.error "network down") =
      { storedToken := none, admin := none } ∧
    ((runAuth { storedToken := none, admin := none }
        [AuthEvent.doLogin { token := "t1", user := c7admin }]).admin =
          some c7admin ∧
      c7admin.role = "admin") :=
  ⟨(auth_admin_invariant.1 (some "t") (Except.ok c7admin) c7admin
      (by decide)).2,
    auth_admin_invariant.2.1 "t" (Except.error "network down")
      (Or.inl ⟨"network down", rfl⟩),
    by decide,
    auth_admin_invariant.2.2 none
      [AuthEvent.doLogin { token := "t1", user := c7admin }] c7admin
      (by decide)⟩

/-! ### Confirmation, mutation-failure and lookup claims -/

/-- Claim C8: each destructive handler issues its delete call exactly when
the prompt input is the literal `"DELETE"`; any other input (including a
cancelled prompt and lowercase `"delete"`) issues no call at all. -/
theorem delete_confirmation_exact :
    (∀ (userId : String) (input : Option String),
      AdminCall.deleteUser userId ∈ handleDeleteUser userId input ↔
        input = some "DELETE") ∧
    (∀ (reportId : String) (input : Option String),
      AdminCall.deleteReport reportId ∈ handleDeleteReport reportId input ↔
        input = some "DELETE") ∧
    (∀ (reportId commentId : String) (input : Option String),
      AdminCall.deleteComment reportId commentId ∈
          handleDeleteComment reportId commentId input ↔
        input = some "DELETE") ∧
    (∀ (userId : String) (input : Option String),
      ¬ input = some "DELETE" → handleDeleteUser userId input = []) ∧
    (∀ (reportId : String) (input : Option String),
      ¬ input = some "DELETE" → handleDeleteReport reportId input = []) ∧
    (∀ (reportId commentId : String) (input : Option String),
      ¬ input = some "DELETE" →
        handleDeleteComment reportId commentId input = []) := by
  refine ⟨?_, ?_, ?_, ?_, ?_, ?_⟩
  · intro userId input
    by_cases h : input = some "DELETE" <;> simp [handleDeleteUser, h]
  · intro reportId input
    by_cases h : input = some "DELETE" <;> simp [handleDeleteReport, h]
  · intro reportId commentId input
    by_cases h : input = some "DELETE" <;> simp [handleDeleteComment, h]
  · intro userId input h
    simp [handleDeleteUser, h]
  · intro reportId input h
    simp [handleDeleteReport, h]
  · intro reportId commentId input h
    simp [handleDeleteComment, h]

/-- Witness for claim C8: lowercase `"delete"` and a cancelled prompt issue
no call. -/
theorem delete_confirmation_exact_witness :
    handleDeleteUser "u1" (some "delete") = [] ∧
    handleDeleteReport "r1" (some "delete") = [] ∧
    handleDeleteComment "r1" "c1" none = [] :=
  ⟨delete_confirmation_exact.2.2.2.1 "u1" (some "delete") (by decide),
    delete_confirmation_exact.2.2.2.2.1 "r1" (some "delete") (by decide),
    delete_confirmation_exact.2.2.2.2.2 "r1" "c1" none (by decide)⟩

/-- Claim C9: a failed mutation leaves the cached data exactly as it was
and surfaces the backend message when one is present and non-empty,
otherwise the generic fallback of that mutation. -/
theorem mutation_error_preserves_state :
    ∀ (m : AdminMutation) (st : LocalData) (payload : Option String),
      (onMutationError m st payload).1 = st ∧
      (payload = none →
        (onMutationError m st payload).2 = fallbackMessage m) ∧
      (payload = some "" →
        (onMutationError m st payload).2 = fallbackMessage m) ∧
      (∀ s, payload = some s → ¬ s = "" →
        (onMutationError m st payload).2 = s) := by
  intro m st payload
  refine ⟨rfl, ?_, ?_, ?_⟩
  · intro h
    simp [onMutationError, jsOrDefault, h]
  · intro h
    simp [onMutationError, jsOrDefault, h]
  · intro s h hs
    simp [onMutationError, jsOrDefault, h, hs]

/-- Witness for claim C9 at the delete-user mutation with an empty cache:
no state change, backend message surfaced, fallback on a missing payload. -/
theorem mutation_error_preserves_state_witness :
    (onMutationError AdminMutation.deleteUser { users := [], reports := [] }
        (some "User not found")).1 =
      { users := [], reports := [] } ∧
    (onMutationError AdminMutation.deleteUser { users := [], reports := [] }
        none).2 = "Failed to delete user" ∧
    (onMutationError AdminMutation.deleteUser { users := [], reports := [] }
        (some "User not found")).2 = "User not found" :=
  ⟨(mutation_error_preserves_state AdminMutation.deleteUser
      { users := [], reports := [] } (some "User not found")).1,
    (mutation_error_preserves_state AdminMutation.deleteUser
      { users := [], reports := [] } none).2.1 rfl,
    (mutation_error_preserves_state AdminMutation.deleteUser
      { users := [], reports := [] } (some "User not found")).2.2.2
      "User not found" rfl (by decide)⟩

/-- Claim C10: the label/color lookup succeeds exactly on the five fixed
category values; under the invariant that every category is in the fixed
set the render-time lookup never fails, and on any other category it fails
with the unhandled unrecognized-category error. -/
theorem category_lookup_fixed_set :
    (∀ t : String, (reportTypes t).isSome = true ↔ t ∈ fixedCategories) ∧
    (∀ r : Report, r.type ∈ fixedCategories → (typeBadge r).isOk = true) ∧
    (∀ r : Report, ¬ r.type ∈ fixedCategories →
      typeBadge r = Except.error RenderError.unrecognizedCategory) := by
  have mem_iff : ∀ t : String, (reportTypes t).isSome = true ↔
      t ∈ fixedCategories := by
    intro t
    constructor
    · intro h
      unfold reportTypes at h
      split at h <;> simp_all [fixedCategories]
    · intro h
      simp only [fixedCategories, List.mem_cons, List.not_mem_nil,
        or_false] at h
      rcases h with rfl | rfl | rfl | rfl | rfl <;> rfl
  refine ⟨mem_iff, ?_, ?_⟩
  · intro r h
    rw [← mem_iff] at h
    unfold typeBadge
    cases hcfg : reportTypes r.type with
    | none => rw [hcfg] at h; cases h
    | some cfg => rfl
  · intro r h
    rw [← mem_iff] at h
    unfold typeBadge
    cases hcfg : reportTypes r.type with
    | none => rfl
    | some cfg => rw [hcfg] at h; cases h rfl

/-- A report with a recognized category. -/
def c10flood : Report :=
  { id := "rf", type := "flood", description := "water on the road",
    locationName := some "Lagos", latitude := none, longitude := none,
    photoUrl := none,
    userId := { id := "uf", email := "f@x.com", name := none },
    upvotes := 0, comments := none, createdAt := "t" }

/-- A report with an unrecognized category. -/
def c10other : Report :=
  { id := "ro", type := "road-closed", description := "street closed",
    locationName := none, latitude := none, longitude := none,
    photoUrl := none,
    userId := { id := "uo", email := "o@x.com", name := none },
    upvotes := 0, comments := none, createdAt := "t" }

/-- Witness for claim C10 at a recognized and an unrecognized category. -/
theorem category_lookup_fixed_set_witness :
    (typeBadge c10flood).isOk = true ∧
    typeBadge c10other = Except.error RenderError.unrecognizedCategory :=
  ⟨category_lookup_fixed_set.2.1 c10flood (by decide),
    category_lookup_fixed_set.2.2 c10other (by decide)⟩

end Trafeek
